import Mathlib

/-!
Verification development for `qtrangeslider/_style.py` (superqt fork).

The module is embedded shallowly:
  * numeric style values (Python floats holding small decimals) are modelled as
    exact rationals (`Rat`);
  * Python `None`-able fields become `Option` fields, and Python's truthiness
    based `x or y` fallback chains become explicit `pyOr*` helpers in which
    both `None` and `0` (resp. the empty string) are falsy;
  * operations that can raise a Python exception return `Except PyError _`;
  * the global `SYSTEM_STYLE` is passed to each accessor as an explicit `sys`
    argument;
  * the Qt color model (`QColor(str)`) is external to the repository; it is
    modelled for the color forms actually used by this module: `#RGB`,
    `#RRGGBB`, `#AARRGGBB` hex strings and the color name "transparent"
    (the 9- and 12-digit hex forms and the remaining SVG names never occur in
    the presets or in any claim);
  * the `re` searches of the source are executed by a small backtracking
    matcher (`rmatch`/`rsearch`) over direct transcriptions of the source's
    regular expressions into token lists.
-/

/-- Python exception kinds that the embedded code can raise. -/
inductive PyError
  | attributeError
  | typeError
  | valueError
deriving DecidableEq, Repr

/-- Model of a Qt `QColor`: either a concrete rgba value (components 0-255,
alpha kept as an exact fraction as set by `setAlphaF`) or the invalid color
produced by `QColor(s)` on an unrecognized string. -/
inductive QColorV
  | rgba (r g b : Nat) (aF : Rat)
  | invalid
deriving DecidableEq, Repr

/-- Model of `QColor.isValid`. -/
def QColorV.isValid : QColorV → Bool
  | .invalid => false
  | .rgba _ _ _ _ => true

/-- Model of `QColor.setAlphaF` (mutation rendered functionally). -/
def QColorV.setAlphaF : QColorV → Rat → QColorV
  | .rgba r g b _, a => .rgba r g b a
  | .invalid, _ => .invalid

/-- Model of a `QLinearGradient` built by `parse_color`. -/
structure LinearGradV where
  x1 : Rat
  y1 : Rat
  x2 : Rat
  y2 : Rat
  c0 : QColorV
  c1 : QColorV
deriving DecidableEq, Repr

/-- Model of a `QRadialGradient` built by `parse_color`. -/
structure RadialGradV where
  cx : Rat
  cy : Rat
  radius : Rat
  fx : Rat
  fy : Rat
  c0 : QColorV
  c1 : QColorV
deriving DecidableEq, Repr

/-- A Qt gradient value. -/
inductive GradVal
  | linear (g : LinearGradV)
  | radial (g : RadialGradV)
deriving DecidableEq, Repr

/-- A value stored in a brush/pen field of `RangeSliderStyle`: the presets
store strings, stylesheet extraction stores `QColor` or gradient objects. -/
inductive BrushVal
  | str (s : String)
  | color (c : QColorV)
  | grad (g : GradVal)
deriving DecidableEq, Repr

/-- A value the `brush` accessor hands to the painter after the
`isinstance(val, str)` conversion: a concrete color or a gradient. -/
inductive DrawVal
  | color (c : QColorV)
  | grad (g : GradVal)
deriving DecidableEq, Repr

/-- Widget orientation (`Qt.Horizontal` / `Qt.Vertical`). -/
inductive QtOrientation
  | horizontal
  | vertical
deriving DecidableEq, Repr

/-- Palette color group (`QPalette.Active` / `Inactive` / `Disabled`). -/
inductive ColorGroup
  | active
  | inactive
  | disabled
deriving DecidableEq, Repr

/-- Qt tick positions. As flag values: `NoTicks = 0`, `TicksAbove = 1`
(= `TicksLeft`), `TicksBelow = 2` (= `TicksRight`), `TicksBothSides = 3`. -/
inductive TickPos
  | noTicks
  | above
  | below
  | bothSides
deriving DecidableEq, Repr

/-- Test `tp & QSlider.TicksAbove` (bit 0 of the flag value). -/
def TickPos.hasAbove : TickPos → Bool
  | .above => true
  | .bothSides => true
  | _ => false

/-- Test `tp & QSlider.TicksBelow` (bit 1 of the flag value). -/
def TickPos.hasBelow : TickPos → Bool
  | .below => true
  | .bothSides => true
  | _ => false

/-- The `RangeSliderStyle` dataclass; every field defaults to `None`
(`has_stylesheet` to `False`) exactly as in the source. -/
structure RangeSliderStyle where
  brush_active : Option BrushVal := none
  brush_inactive : Option BrushVal := none
  brush_disabled : Option BrushVal := none
  pen_active : Option BrushVal := none
  pen_inactive : Option BrushVal := none
  pen_disabled : Option BrushVal := none
  vertical_thickness : Option Rat := none
  horizontal_thickness : Option Rat := none
  tick_offset : Option Rat := none
  tick_bar_alpha : Option Rat := none
  v_offset : Option Rat := none
  h_offset : Option Rat := none
  has_stylesheet : Bool := false
deriving DecidableEq, Repr

/-- A freshly constructed `RangeSliderStyle()` with every field left at its
default, i.e. the wholly-unset per-widget instance record. -/
def unsetStyle : RangeSliderStyle := {}

/-- Python truthiness of an optional float: `None` and `0` are falsy. -/
def ratTruthy : Option Rat → Bool
  | none => false
  | some q => if q = 0 then false else true

/-- Python `a or b` on optional floats. -/
def pyOrRat (a b : Option Rat) : Option Rat :=
  if ratTruthy a then a else b

/-- Python truthiness of an optional brush value: `None` and the empty
string are falsy; `QColor`/gradient objects are always truthy. -/
def brushTruthy : Option BrushVal → Bool
  | none => false
  | some (.str s) => if s = "" then false else true
  | some (.color _) => true
  | some (.grad _) => true

/-- Python `a or b` on optional brush values. -/
def pyOrBrush (a b : Option BrushVal) : Option BrushVal :=
  if brushTruthy a then a else b

/-- Value of a decimal digit sequence. -/
def digitsToNat (ds : List Char) : Nat :=
  ds.foldl (fun a c => a * 10 + (c.toNat - 48)) 0

/-- Value of a hexadecimal digit, if any. -/
def hexDigitVal (c : Char) : Option Nat :=
  if c.isDigit then some (c.toNat - 48)
  else if 'a' ≤ c ∧ c ≤ 'f' then some (c.toNat - 87)
  else if 'A' ≤ c ∧ c ≤ 'F' then some (c.toNat - 55)
  else none

/-- Values of a list of hexadecimal digits, if all are valid. -/
def hexDigitVals : List Char → Option (List Nat)
  | [] => some []
  | c :: rest =>
    match hexDigitVal c, hexDigitVals rest with
    | some v, some vs => some (v :: vs)
    | _, _ => none

/-- Model of the external `QColor(str)` constructor for the color forms used
by this module: `#RGB`, `#RRGGBB`, `#AARRGGBB` and the name "transparent";
every other string yields the invalid color. -/
def qcolorFromString (s : String) : QColorV :=
  match s.data with
  | '#' :: hx =>
    match hexDigitVals hx with
    | some [r, g, b] => .rgba (17 * r) (17 * g) (17 * b) 1
    | some [r1, r2, g1, g2, b1, b2] =>
        .rgba (16 * r1 + r2) (16 * g1 + g2) (16 * b1 + b2) 1
    | some [a1, a2, r1, r2, g1, g2, b1, b2] =>
        .rgba (16 * r1 + r2) (16 * g1 + g2) (16 * b1 + b2)
          ((16 * a1 + a2 : Rat) / 255)
    | _ => .invalid
  | _ => if s = "transparent" then .rgba 0 0 0 0 else .invalid

/-- Select the `brush_*` field for a color group (the `attr` dictionary of
`RangeSliderStyle.brush`). -/
def RangeSliderStyle.brushField (s : RangeSliderStyle) : ColorGroup → Option BrushVal
  | .active => s.brush_active
  | .inactive => s.brush_inactive
  | .disabled => s.brush_disabled

/-- The value `val` of `RangeSliderStyle.brush` after the fallback chain
`getattr(self, attr) or getattr(SYSTEM_STYLE, attr)` and the
`isinstance(val, str)` conversion to `QColor`. -/
def RangeSliderStyle.resolvedDraw (self sys : RangeSliderStyle) (cg : ColorGroup) :
    Option DrawVal :=
  match pyOrBrush (self.brushField cg) (sys.brushField cg) with
  | some (.str s) => some (.color (qcolorFromString s))
  | some (.color c) => some (.color c)
  | some (.grad g) => some (.grad g)
  | none => none

/-- `RangeSliderStyle.brush` (lines 36-50). When ticks are drawn the source
runs `val.setAlphaF(self.tick_bar_alpha or SYSTEM_STYLE.tick_bar_alpha)` on
whatever `val` is: on `None` or a gradient this raises `AttributeError`
(neither has `setAlphaF`); `setAlphaF(None)` raises `TypeError`. -/
def RangeSliderStyle.brush (self sys : RangeSliderStyle) (cg : ColorGroup)
    (tp : TickPos) : Except PyError (Option DrawVal) :=
  let val := self.resolvedDraw sys cg
  if tp ≠ TickPos.noTicks then
    match val with
    | some (.color c) =>
      match pyOrRat self.tick_bar_alpha sys.tick_bar_alpha with
      | some a => .ok (some (.color (c.setAlphaF a)))
      | none => .error .typeError
    | some (.grad _) => .error .attributeError
    | none => .error .attributeError
  else .ok val

/-- The `off += self.X_offset or SYSTEM_STYLE.X_offset or 0` step of
`RangeSliderStyle.offset` for the chosen orientation. -/
def RangeSliderStyle.baseOffset (self sys : RangeSliderStyle)
    (orient : QtOrientation) : Rat :=
  match orient with
  | .horizontal =>
    match pyOrRat self.h_offset sys.h_offset with
    | some q => if q = 0 then 0 else q
    | none => 0
  | .vertical =>
    match pyOrRat self.v_offset sys.v_offset with
    | some q => if q = 0 then 0 else q
    | none => 0

/-- `RangeSliderStyle.offset` (lines 69-81): `0` when `has_stylesheet` is
set, otherwise the base offset plus/minus `self.tick_offset or
SYSTEM_STYLE.tick_offset` according to the tick flags (`off += None` would
raise `TypeError`). -/
def RangeSliderStyle.offset (self sys : RangeSliderStyle) (orient : QtOrientation)
    (tp : TickPos) : Except PyError Rat :=
  if self.has_stylesheet then .ok 0
  else
    let off := self.baseOffset sys orient
    if tp.hasAbove then
      match pyOrRat self.tick_offset sys.tick_offset with
      | some t => .ok (off + t)
      | none => .error .typeError
    else if tp.hasBelow then
      match pyOrRat self.tick_offset sys.tick_offset with
      | some t => .ok (off - t)
      | none => .error .typeError
    else .ok off

/-- `RangeSliderStyle.thickness` (lines 83-87). -/
def RangeSliderStyle.thickness (self sys : RangeSliderStyle)
    (orient : QtOrientation) : Option Rat :=
  match orient with
  | .horizontal => pyOrRat self.horizontal_thickness sys.horizontal_thickness
  | .vertical => pyOrRat self.vertical_thickness sys.vertical_thickness

/-- `BASE_STYLE` (lines 92-106). `0.3` is kept as the exact rational. -/
def BASE_STYLE : RangeSliderStyle where
  brush_active := some (.str "#3B88FD")
  brush_inactive := some (.str "#8F8F8F")
  brush_disabled := some (.str "#BBBBBB")
  pen_active := some (.str "transparent")
  pen_inactive := some (.str "transparent")
  pen_disabled := some (.str "transparent")
  vertical_thickness := some 4
  horizontal_thickness := some 4
  tick_offset := some 0
  tick_bar_alpha := some (3 / 10)
  v_offset := some 0
  h_offset := some 0
  has_stylesheet := false

/-- `CATALINA_STYLE = replace(BASE_STYLE, ...)` (lines 108-117). -/
def CATALINA_STYLE : RangeSliderStyle :=
  { BASE_STYLE with
    brush_active := some (.str "#3B88FD")
    brush_inactive := some (.str "#8F8F8F")
    brush_disabled := some (.str "#D2D2D2")
    horizontal_thickness := some 3
    vertical_thickness := some 3
    tick_bar_alpha := some (3 / 10)
    tick_offset := some 4 }

/-- `BIG_SUR_STYLE = replace(CATALINA_STYLE, ...)` (lines 119-129). -/
def BIG_SUR_STYLE : RangeSliderStyle :=
  { CATALINA_STYLE with
    brush_active := some (.str "#0A81FE")
    brush_inactive := some (.str "#D5D5D5")
    brush_disabled := some (.str "#E6E6E6")
    tick_offset := some 0
    horizontal_thickness := some 4
    vertical_thickness := some 4
    h_offset := some (-2)
    tick_bar_alpha := some (1 / 5) }

/-- `LINUX_STYLE = replace(BASE_STYLE, ...)` (lines 131-139). -/
def LINUX_STYLE : RangeSliderStyle :=
  { BASE_STYLE with
    brush_active := some (.str "#44A0D9")
    brush_inactive := some (.str "#44A0D9")
    brush_disabled := some (.str "#44A0D9")
    pen_active := some (.str "#286384")
    pen_inactive := some (.str "#286384")
    pen_disabled := some (.str "#286384") }

/-- Python whitespace characters (the ASCII part of `\s` / `str.strip`). -/
def wsC (c : Char) : Bool :=
  c = ' ' || c = '\t' || c = '\n' || c = '\r' || c = '\x0b' || c = '\x0c'

/-- A non-whitespace character (`\S`). -/
def nonWsC (c : Char) : Bool := !(wsC c)

/-- Strip leading and trailing whitespace, as `int(str)` does before
parsing. -/
def stripWs (cs : List Char) : List Char :=
  ((cs.dropWhile wsC).reverse.dropWhile wsC).reverse

/-- Check the tail of a Python integer literal: decimal digits with single
underscores allowed between digits only. -/
def digitsURest : List Char → Bool
  | [] => true
  | '_' :: c :: rest => c.isDigit && digitsURest (c :: rest)
  | '_' :: [] => false
  | c :: rest => c.isDigit && digitsURest rest

/-- Model of Python's `int(str)`: optional surrounding whitespace, optional
sign, then a nonempty digit sequence (underscore separators allowed);
any other string raises `ValueError`, rendered as `none`. -/
def pyInt (s : String) : Option Int :=
  let cs := stripWs s.data
  let signed : Int × List Char :=
    match cs with
    | '-' :: rest => (-1, rest)
    | '+' :: rest => (1, rest)
    | _ => (1, cs)
  match signed.2 with
  | [] => none
  | c :: rest =>
    if c.isDigit && digitsURest rest then
      some (signed.1 * (digitsToNat ((c :: rest).filter (fun x => x ≠ '_')) : Int))
    else none

/-- Python `ver.split(".", maxsplit=1)[0]`: the prefix of `ver` before the
first dot (the whole string when there is no dot). -/
def firstDotComponent (s : String) : String :=
  String.mk (s.data.takeWhile (fun c => c ≠ '.'))

/-- The module-level `SYSTEM_STYLE` selection (lines 141-152), as a function
of `platform.system()` and `platform.mac_ver()[0]`. On Darwin the source
runs `int(platform.mac_ver()[0].split(".", maxsplit=1)[0])`, which raises
`ValueError` when the leading component is not an integer literal. -/
def selectSystemStyle (system macVer : String) : Except PyError RangeSliderStyle :=
  if system = "Darwin" then
    match pyInt (firstDotComponent macVer) with
    | some n => if 11 ≤ n then .ok BIG_SUR_STYLE else .ok CATALINA_STYLE
    | none => .error .valueError
  else if system = "Windows" then .ok BASE_STYLE
  else if system = "Linux" then .ok LINUX_STYLE
  else .ok BASE_STYLE

/-- Tokens of the regular expressions used by the source, in the shapes they
actually use: literals, greedy single-character-class repetitions (plain and
capturing), greedy optional pieces, and the numeric group `(\d*\.?\d+)`. -/
inductive RTok
  | lit (s : List Char)
  | star (p : Char → Bool)
  | optc (c : Char)
  | optLit (s : List Char)
  | grpStar (p : Char → Bool)
  | grpPlus (p : Char → Bool)
  | grpNum

/-- Greedy backtracking over the count of a starred class: try `k`,
`k - 1`, ..., `0`. -/
def tryDown (f : Nat → Option α) : Nat → Option α
  | 0 => f 0
  | k + 1 =>
    match f (k + 1) with
    | some r => some r
    | none => tryDown f k

/-- Greedy backtracking for a `+` repetition: try `k`, ..., `1`. -/
def tryDown1 (f : Nat → Option α) : Nat → Option α
  | 0 => none
  | k + 1 =>
    match f (k + 1) with
    | some r => some r
    | none => tryDown1 f k

/-- Span consumed by `(\d*\.?\d+)` at the head of `cs` under greedy
matching: digits, an optional dot, digits. In the source's patterns this
group is always followed by a literal `,` or `)`, neither of which is a
digit or a dot, so no shorter span could ever satisfy the continuation and
the greedy result is the unique candidate. -/
def numSpan (cs : List Char) : Option (List Char) :=
  let a := cs.takeWhile Char.isDigit
  match cs.drop a.length with
  | '.' :: r2 =>
    let b := r2.takeWhile Char.isDigit
    if b.isEmpty then (if a.isEmpty then none else some a)
    else some (a ++ '.' :: b)
  | _ => if a.isEmpty then none else some a

/-- Backtracking matcher for a token list against the head of the input
(`re.match` semantics: anchored at the start, trailing input allowed).
Returns the captured groups in order. The fuel argument only bounds the
recursion depth, which never exceeds the number of tokens; `rmatchTop`
supplies enough fuel for the bound to be irrelevant. -/
def rmatch : Nat → List RTok → List Char → List (List Char) →
    Option (List (List Char))
  | _, [], _, caps => some caps.reverse
  | 0, _ :: _, _, _ => none
  | fuel + 1, .lit s :: ps, cs, caps =>
    if s.isPrefixOf cs then rmatch fuel ps (cs.drop s.length) caps else none
  | fuel + 1, .star p :: ps, cs, caps =>
    tryDown (fun k => rmatch fuel ps (cs.drop k) caps) (cs.takeWhile p).length
  | fuel + 1, .optc c :: ps, cs, caps =>
    match cs with
    | c2 :: rest =>
      if c2 = c then
        match rmatch fuel ps rest caps with
        | some r => some r
        | none => rmatch fuel ps cs caps
      else rmatch fuel ps cs caps
    | [] => rmatch fuel ps cs caps
  | fuel + 1, .optLit s :: ps, cs, caps =>
    if s.isPrefixOf cs then
      match rmatch fuel ps (cs.drop s.length) caps with
      | some r => some r
      | none => rmatch fuel ps cs caps
    else rmatch fuel ps cs caps
  | fuel + 1, .grpStar p :: ps, cs, caps =>
    tryDown (fun k => rmatch fuel ps (cs.drop k) (cs.take k :: caps))
      (cs.takeWhile p).length
  | fuel + 1, .grpPlus p :: ps, cs, caps =>
    tryDown1 (fun k => rmatch fuel ps (cs.drop k) (cs.take k :: caps))
      (cs.takeWhile p).length
  | fuel + 1, .grpNum :: ps, cs, caps =>
    match numSpan cs with
    | some span => rmatch fuel ps (cs.drop span.length) (span :: caps)
    | none => none

/-- `pattern.match(s)`: anchored attempt at position 0. -/
def rmatchTop (ps : List RTok) (cs : List Char) : Option (List (List Char)) :=
  rmatch (ps.length + 1) ps cs []

/-- `re.search(pattern, s)`: attempt the anchored match at every position,
left to right. -/
def rsearch (ps : List RTok) : List Char → Option (List (List Char))
  | [] => rmatchTop ps []
  | c :: rest =>
    match rmatchTop ps (c :: rest) with
    | some r => some r
    | none => rsearch ps rest

/-- Transcription of `qlineargrad_pattern` (lines 157-168; `re.X`, so the
pattern's own whitespace is insignificant):
`qlineargradient\(x1:\s*(\d*\.?\d+),\s*y1:\s*(\d*\.?\d+),\s*x2:\s*(\d*\.?\d+),
\s*y2:\s*(\d*\.?\d+),\s*stop:0\s*(\S+),.*stop:1\s*(\S+)\)`. -/
def qlineargradPattern : List RTok :=
  [.lit "qlineargradient(x1:".data, .star wsC, .grpNum, .lit ",".data,
   .star wsC, .lit "y1:".data, .star wsC, .grpNum, .lit ",".data,
   .star wsC, .lit "x2:".data, .star wsC, .grpNum, .lit ",".data,
   .star wsC, .lit "y2:".data, .star wsC, .grpNum, .lit ",".data,
   .star wsC, .lit "stop:0".data, .star wsC, .grpPlus nonWsC, .lit ",".data,
   .star (fun c => c ≠ '\n'), .lit "stop:1".data, .star wsC,
   .grpPlus nonWsC, .lit ")".data]

/-- Transcription of `qradial_pattern` (lines 170-182):
`qradialgradient\(cx:\s*(\d*\.?\d+),\s*cy:\s*(\d*\.?\d+),\s*radius:\s*
(\d*\.?\d+),\s*fx:\s*(\d*\.?\d+),\s*fy:\s*(\d*\.?\d+),\s*stop:0\s*(\S+),.*
stop:1\s*(\S+)\)`. -/
def qradialgradPattern : List RTok :=
  [.lit "qradialgradient(cx:".data, .star wsC, .grpNum, .lit ",".data,
   .star wsC, .lit "cy:".data, .star wsC, .grpNum, .lit ",".data,
   .star wsC, .lit "radius:".data, .star wsC, .grpNum, .lit ",".data,
   .star wsC, .lit "fx:".data, .star wsC, .grpNum, .lit ",".data,
   .star wsC, .lit "fy:".data, .star wsC, .grpNum, .lit ",".data,
   .star wsC, .lit "stop:0".data, .star wsC, .grpPlus nonWsC, .lit ",".data,
   .star (fun c => c ≠ '\n'), .lit "stop:1".data, .star wsC,
   .grpPlus nonWsC, .lit ")".data]

/-- Python `float` on a capture of `(\d*\.?\d+)`: digits, optional dot,
digits, as an exact rational. -/
def listToRat (cs : List Char) : Rat :=
  let a := cs.takeWhile Char.isDigit
  match cs.drop a.length with
  | '.' :: r2 =>
    let b := r2.takeWhile Char.isDigit
    (digitsToNat a : Rat) + (digitsToNat b : Rat) / ((10 : Rat) ^ b.length)
  | _ => (digitsToNat a : Rat)

/-- Build the `QLinearGradient` of `parse_color` from the six captures
`x1, y1, x2, y2, stop0, stop1`. -/
def mkLinearGrad (caps : List (List Char)) : GradVal :=
  .linear
    { x1 := listToRat (caps.getD 0 [])
      y1 := listToRat (caps.getD 1 [])
      x2 := listToRat (caps.getD 2 [])
      y2 := listToRat (caps.getD 3 [])
      c0 := qcolorFromString (String.mk (caps.getD 4 []))
      c1 := qcolorFromString (String.mk (caps.getD 5 [])) }

/-- Build the `QRadialGradient` of `parse_color` from the seven captures
`cx, cy, radius, fx, fy, stop0, stop1`. -/
def mkRadialGrad (caps : List (List Char)) : GradVal :=
  .radial
    { cx := listToRat (caps.getD 0 [])
      cy := listToRat (caps.getD 1 [])
      radius := listToRat (caps.getD 2 [])
      fx := listToRat (caps.getD 3 [])
      fy := listToRat (caps.getD 4 [])
      c0 := qcolorFromString (String.mk (caps.getD 5 []))
      c1 := qcolorFromString (String.mk (caps.getD 6 [])) }

/-- `parse_color` (lines 185-208). After the linear-gradient attempt fails,
the source executes `print("match", match.groupdict())` on the result of the
radial-gradient match (line 200): when that match is `None` this raises
`AttributeError` before the `if match:` test, so the final
`return "#333"` on line 208 is unreachable for every input. -/
def parseColor (color : String) : Except PyError BrushVal :=
  let qc := qcolorFromString color
  if qc.isValid then .ok (.color qc)
  else
    match rmatchTop qlineargradPattern color.data with
    | some caps => .ok (.grad (mkLinearGrad caps))
    | none =>
      match rmatchTop qradialgradPattern color.data with
      | some caps => .ok (.grad (mkRadialGrad caps))
      | none => .error .attributeError

/-- Characters at which Python `str.splitlines` breaks. -/
def splitBoundary (c : Char) : Bool :=
  c = '\n' || c = '\r' || c = '\x0b' || c = '\x0c' || c = '\x1c' ||
  c = '\x1d' || c = '\x1e' || c = '\x85' || c = ' ' || c = ' '

/-- Worker for `pySplitlines`, carrying the current line reversed. -/
def splitlinesAux : List Char → List Char → List String
  | [], acc => if acc.isEmpty then [] else [String.mk acc.reverse]
  | '\r' :: '\n' :: rest, acc => String.mk acc.reverse :: splitlinesAux rest []
  | c :: rest, acc =>
    if splitBoundary c then String.mk acc.reverse :: splitlinesAux rest []
    else splitlinesAux rest (c :: acc)

/-- Python `str.splitlines()` (no trailing empty line, `\r\n` counts as a
single boundary). -/
def pySplitlines (s : String) : List String :=
  splitlinesAux s.data []

/-- Transcription of the sub-page fill regex of line 223:
`Slider::sub-page:?([^{\s]*)?\s*{\s*([^}]+)}` (the `re.S` flag only affects
`.`, which the pattern does not use). The outer `?` on the orientation group
is redundant: the inner `*` already matches the empty string, giving the
capture `""`. -/
def subPagePattern : List RTok :=
  [.lit "Slider::sub-page".data, .optc ':',
   .grpStar (fun c => !(c = '{' || wsC c)),
   .star wsC, .lit ['{'], .star wsC, .grpPlus (fun c => c ≠ '}'), .lit ['}']]

/-- Transcription of the per-orientation groove regex of line 243:
`Slider::groove:{orient}\s*{\s*([^}]+)}`. -/
def groovePattern (orient : String) : List RTok :=
  [.lit ("Slider::groove:" ++ orient).data,
   .star wsC, .lit ['{'], .star wsC, .grpPlus (fun c => c ≠ '}'), .lit ['}']]

/-- Transcription of the per-line fill regex of line 227:
`background(-color)?:\s*([^;]+)`; `bgrd.groups()[-1]` is the value group. -/
def backgroundPattern : List RTok :=
  [.lit "background".data, .optLit "-color".data, .lit [':'],
   .star wsC, .grpPlus (fun c => c ≠ ';')]

/-- Transcription of the per-line dimension regex of line 246:
`{dim}\s*:\s*(\d+)`. -/
def dimPattern (dim : String) : List RTok :=
  [.lit dim.data, .star wsC, .lit [':'], .star wsC, .grpPlus Char.isDigit]

/-- `re.search(r"background(-color)?:\s*([^;]+)", line)`, returning the
value capture. -/
def searchBackground (line : String) : Option String :=
  (rsearch backgroundPattern line.data).map fun caps =>
    String.mk (caps.getD 0 [])

/-- The fill loop of lines 226-239: scan the body's lines in reverse order
and stop at the first line with a background declaration (`break`). -/
def scanFill (lines : List String) : Option String :=
  lines.reverse.findSome? searchBackground

/-- `re.search(rf"{dim}\s*:\s*(\d+)", line)` followed by
`float(bgrd.groups()[-1])`. -/
def searchDim (dim : String) (line : String) : Option Rat :=
  (rsearch (dimPattern dim) line.data).map fun caps =>
    (digitsToNat (caps.getD 0 []) : Rat)

/-- The thickness loop of lines 245-250: scan the body's lines in reverse
order and assign on EVERY matching line — the source has no `break` here, so
a later-processed (earlier-written) declaration overwrites an earlier one. -/
def scanThickness (dim : String) (lines : List String) : Option Rat :=
  lines.reverse.foldl
    (fun acc line =>
      match searchDim dim line with
      | some v => some v
      | none => acc)
    none

/-- `update_styles_from_stylesheet` (lines 211-250), as a function of the
already-concatenated stylesheet text `qss` (the collaborator widget walk of
lines 212-217 happens outside this module's data). The second component of
the result is the suppression rule appended to the widget's stylesheet by
line 236-238 when the fill matched (its `class_name` is `QRangeSlider`); a
`parse_color` exception propagates out. -/
def updateStylesFromStylesheet (qss : String) (style : RangeSliderStyle) :
    Except PyError (RangeSliderStyle × Option String) :=
  let style := { style with has_stylesheet := false }
  let fillStep : Except PyError (RangeSliderStyle × Option String) :=
    match rsearch subPagePattern qss.data with
    | some caps =>
      let orientation := String.mk (caps.getD 0 [])
      let content := String.mk (caps.getD 1 [])
      match scanFill (pySplitlines content) with
      | some colorStr =>
        match parseColor colorStr with
        | .error e => .error e
        | .ok c =>
          .ok ({ style with
                  brush_active := some c
                  brush_inactive := some c
                  brush_disabled := some c
                  has_stylesheet := true },
               some ("\nQRangeSlider::sub-page:" ++ orientation ++
                     "\x7bbackground: none\x7d"))
      | none => .ok (style, none)
    | none => .ok (style, none)
  match fillStep with
  | .error e => .error e
  | .ok (st1, rule) =>
    let st2 :=
      match rsearch (groovePattern "horizontal") qss.data with
      | some caps =>
        match scanThickness "height" (pySplitlines (String.mk (caps.getD 0 []))) with
        | some v => { st1 with horizontal_thickness := some v, has_stylesheet := true }
        | none => st1
      | none => st1
    let st3 :=
      match rsearch (groovePattern "vertical") qss.data with
      | some caps =>
        match scanThickness "width" (pySplitlines (String.mk (caps.getD 0 []))) with
        | some v => { st2 with vertical_thickness := some v, has_stylesheet := true }
        | none => st2
      | none => st2
    .ok (st3, rule)

/-- Concrete gradient used to exercise the gradient branch of `brush`. -/
def gradExample : GradVal :=
  .linear { x1 := 0, y1 := 0, x2 := 1, y2 := 1,
            c0 := .rgba 255 0 0 1, c1 := .rgba 0 0 255 1 }

/-- An instance style whose active fill is a gradient, as produced when the
stylesheet declares a `qlineargradient(...)` background. -/
def gradStyle : RangeSliderStyle :=
  { unsetStyle with brush_active := some (.grad gradExample) }

/-- The stylesheet text of the extraction scenario of the spec. -/
def qssScenario : String :=
  "QRangeSlider::sub-page:horizontal \x7b background-color: #ff0000; \x7d QRangeSlider::groove:horizontal \x7b height: 10; \x7d"

/-- A groove block with two conflicting height declarations on distinct
lines. -/
def qssThicknessTie : String :=
  "QRangeSlider::groove:horizontal \x7b height: 10;\nheight: 20; \x7d"

/-- An overwriting fold over lines none of which matches leaves the
accumulator unchanged. -/
theorem foldl_dim_none (dim : String) (L : List String) (acc : Option Rat)
    (h : ∀ l ∈ L, searchDim dim l = none) :
    L.foldl
      (fun acc line =>
        match searchDim dim line with
        | some v => some v
        | none => acc)
      acc = acc := by
  induction L generalizing acc with
  | nil => rfl
  | cons a as ih =>
    simp only [List.foldl_cons]
    rw [h a (List.mem_cons_self a as)]
    exact ih acc fun l hl => h l (List.mem_cons_of_mem a hl)

/-- `findSome?` skips a leading block of non-matching elements. -/
theorem findSome?_append_left_none {α β : Type} (f : α → Option β)
    (L R : List α) (h : ∀ x ∈ L, f x = none) :
    (L ++ R).findSome? f = R.findSome? f := by
  induction L with
  | nil => rfl
  | cons a as ih =>
    simp only [List.cons_append, List.findSome?]
    rw [h a (List.mem_cons_self a as)]
    exact ih fun x hx => h x (List.mem_cons_of_mem a hx)

/-- C1 (code bug): on input "garbage" — neither a valid color nor a match of
either gradient grammar — `parse_color` raises `AttributeError` at the
leftover debug `print("match", match.groupdict())` of line 200 instead of
returning the claimed "#333" fallback, which is unreachable. -/
theorem parse_color_garbage_raises :
    parseColor "garbage" = .error .attributeError := rfl

/-- C2 counterexample: with ticks drawn and the resolved fill a gradient,
`brush` raises `AttributeError` (the source calls `setAlphaF` on the
gradient) instead of returning the gradient unmodified as claimed. -/
theorem brush_gradient_ticks_cx :
    gradStyle.brush BASE_STYLE .active .above = .error .attributeError ∧
    (Except.error PyError.attributeError : Except PyError (Option DrawVal)) ≠
      Except.ok (some (DrawVal.grad gradExample)) :=
  ⟨rfl, fun h => nomatch h⟩

/-- C2 (amended): with no ticks drawn `brush` returns the resolved value —
in particular a gradient — unmodified; when ticks are drawn the tick-bar
opacity application is attempted on the resolved value regardless of its
kind, raising `AttributeError` on a gradient and succeeding (with the alpha
set) only on a plain color. -/
theorem brush_gradient_amended (self sys : RangeSliderStyle) (cg : ColorGroup) :
    (self.brush sys cg .noTicks = .ok (self.resolvedDraw sys cg)) ∧
    (∀ (g : GradVal) (tp : TickPos),
      self.resolvedDraw sys cg = some (.grad g) → tp ≠ .noTicks →
      self.brush sys cg tp = .error .attributeError) ∧
    (∀ (c : QColorV) (a : Rat) (tp : TickPos),
      self.resolvedDraw sys cg = some (.color c) →
      pyOrRat self.tick_bar_alpha sys.tick_bar_alpha = some a →
      tp ≠ .noTicks →
      self.brush sys cg tp = .ok (some (.color (c.setAlphaF a)))) := by
  refine ⟨by simp [RangeSliderStyle.brush], ?_, ?_⟩
  · intro g tp hres htp
    simp [RangeSliderStyle.brush, htp, hres]
  · intro c a tp hres ha htp
    simp [RangeSliderStyle.brush, htp, hres, ha]

/-- Witness for the amended C2 theorem at a concrete gradient-filled style
record. -/
theorem brush_gradient_amended_witness :
    gradStyle.brush BASE_STYLE .active .noTicks = .ok (some (.grad gradExample)) ∧
    gradStyle.brush BASE_STYLE .active .bothSides = .error .attributeError :=
  ⟨((brush_gradient_amended gradStyle BASE_STYLE .active).1).trans rfl,
   (brush_gradient_amended gradStyle BASE_STYLE .active).2.1 gradExample
     .bothSides rfl (fun h => nomatch h)⟩

/-- C3 counterexample: a groove block declaring `height: 10;` then
`height: 20;` on distinct lines stores thickness 10 — the FIRST-written
declaration — whereas the claim says the last-written (20) determines it. -/
theorem thickness_last_decl_cx :
    updateStylesFromStylesheet qssThicknessTie unsetStyle =
      .ok ({ unsetStyle with
              horizontal_thickness := some 10
              has_stylesheet := true }, none) ∧
    some (10 : Rat) ≠ some (20 : Rat) :=
  ⟨rfl, by norm_num⟩

/-- C3 (amended): the thickness loop has no `break`, so the field is
re-assigned on every matching line of the reverse scan and the declaration
written FIRST in the block determines the stored thickness: if every line
before `d` lacks a matching declaration, the value of `d` is stored no
matter what follows it. -/
theorem thickness_first_decl_wins (dim : String) (pre suf : List String)
    (d : String) (v : Rat) (hd : searchDim dim d = some v)
    (hpre : ∀ l ∈ pre, searchDim dim l = none) :
    scanThickness dim (pre ++ d :: suf) = some v := by
  unfold scanThickness
  have hrev : (pre ++ d :: suf).reverse = suf.reverse ++ d :: pre.reverse := by
    simp
  rw [hrev, List.foldl_append, List.foldl_cons, hd]
  exact foldl_dim_none dim pre.reverse (some v)
    fun l hl => hpre l (List.mem_reverse.mp hl)

/-- Witness for the amended C3 theorem: the later-written `height: 20;`
line is overwritten by the earlier-written `height: 10;` line. -/
theorem thickness_first_decl_wins_witness :
    scanThickness "height" ["color: red;", "height: 10;", "height: 20;"] =
      some 10 :=
  thickness_first_decl_wins "height" ["color: red;"] ["height: 20;"]
    "height: 10;" 10 rfl
    (by intro l hl; simp only [List.mem_singleton] at hl; subst hl; rfl)

/-- C4: the fill loop breaks at the first background declaration found while
scanning the body's lines in reverse, so the declaration written last among
the matching lines supplies the fill value, whatever earlier declarations
say. -/
theorem fill_reverse_scan_last_wins (pre mid suf : List String)
    (d1 d2 : String) (v1 v2 : String)
    (h1 : searchBackground d1 = some v1)
    (h2 : searchBackground d2 = some v2)
    (hsuf : ∀ l ∈ suf, searchBackground l = none) :
    scanFill (pre ++ d1 :: (mid ++ d2 :: suf)) = some v2 := by
  unfold scanFill
  have hrev : (pre ++ d1 :: (mid ++ d2 :: suf)).reverse =
      suf.reverse ++ d2 :: (mid.reverse ++ d1 :: pre.reverse) := by
    simp
  rw [hrev,
    findSome?_append_left_none searchBackground suf.reverse _
      (fun x hx => hsuf x (List.mem_reverse.mp hx))]
  simp only [List.findSome?, h2]

/-- Witness for C4: two conflicting background-color declarations; the one
written last wins. -/
theorem fill_reverse_scan_last_wins_witness :
    scanFill ["background-color: #111111;", "background-color: #222222;"] =
      some "#222222" :=
  fill_reverse_scan_last_wins [] [] [] "background-color: #111111;"
    "background-color: #222222;" "#111111" "#222222" rfl rfl
    (fun l hl => absurd hl (List.not_mem_nil l))

/-- C5: whenever `has_stylesheet` is set, `offset` returns exactly 0,
regardless of every other field, the orientation and the tick position. -/
theorem offset_zero_with_stylesheet (self sys : RangeSliderStyle)
    (orient : QtOrientation) (tp : TickPos)
    (h : self.has_stylesheet = true) :
    self.offset sys orient tp = .ok 0 := by
  simp [RangeSliderStyle.offset, h]

/-- Witness for C5 at a concrete stylesheet-marked record. -/
theorem offset_zero_with_stylesheet_witness :
    ({ unsetStyle with has_stylesheet := true } : RangeSliderStyle).offset
      BASE_STYLE .horizontal .above = .ok 0 :=
  offset_zero_with_stylesheet _ BASE_STYLE .horizontal .above rfl

/-- C6: without a stylesheet override, `offset` is the per-orientation base
offset (instance, else platform default, else 0) plus the resolved tick
offset for ticks above, minus it for ticks below, and the bare base offset
for no ticks; for ticks on both sides the `elif` makes the add branch the
single branch taken, so exactly one branch applies per call. -/
theorem offset_tick_branches (self sys : RangeSliderStyle)
    (orient : QtOrientation) (t : Rat)
    (h : self.has_stylesheet = false)
    (ht : pyOrRat self.tick_offset sys.tick_offset = some t) :
    self.offset sys orient .above = .ok (self.baseOffset sys orient + t) ∧
    self.offset sys orient .below = .ok (self.baseOffset sys orient - t) ∧
    self.offset sys orient .noTicks = .ok (self.baseOffset sys orient) ∧
    self.offset sys orient .bothSides = .ok (self.baseOffset sys orient + t) := by
  refine ⟨?_, ?_, ?_, ?_⟩ <;>
    simp [RangeSliderStyle.offset, h, ht, TickPos.hasAbove, TickPos.hasBelow]

/-- Witness for C6 on the unset instance over the Catalina preset
(`tick_offset = 4`). -/
theorem offset_tick_branches_witness :
    unsetStyle.offset CATALINA_STYLE .horizontal .above =
      .ok (unsetStyle.baseOffset CATALINA_STYLE .horizontal + 4) ∧
    unsetStyle.offset CATALINA_STYLE .horizontal .below =
      .ok (unsetStyle.baseOffset CATALINA_STYLE .horizontal - 4) ∧
    unsetStyle.offset CATALINA_STYLE .horizontal .noTicks =
      .ok (unsetStyle.baseOffset CATALINA_STYLE .horizontal) ∧
    unsetStyle.offset CATALINA_STYLE .horizontal .bothSides =
      .ok (unsetStyle.baseOffset CATALINA_STYLE .horizontal + 4) :=
  offset_tick_branches unsetStyle CATALINA_STYLE .horizontal 4 rfl rfl

/-- C7: the extraction scenario of the spec: one sub-page block with a red
background and one horizontal groove block with height 10 set the override
flag, all three fill fields to solid red `#ff0000`, and the horizontal
thickness to 10 (the suppression rule for the matched orientation is
appended to the widget's stylesheet). -/
theorem stylesheet_scenario_red_10 :
    updateStylesFromStylesheet qssScenario unsetStyle =
      .ok ({ unsetStyle with
              brush_active := some (.color (.rgba 255 0 0 1))
              brush_inactive := some (.color (.rgba 255 0 0 1))
              brush_disabled := some (.color (.rgba 255 0 0 1))
              horizontal_thickness := some 10
              has_stylesheet := true },
           some "\nQRangeSlider::sub-page:horizontal\x7bbackground: none\x7d") :=
  rfl

/-- C8: for each of the four platform presets and both orientations, the
thickness of a wholly-unset instance record resolves to a strictly positive
number. -/
theorem thickness_total_positive (sys : RangeSliderStyle)
    (h : sys = BASE_STYLE ∨ sys = CATALINA_STYLE ∨ sys = BIG_SUR_STYLE ∨
      sys = LINUX_STYLE) (orient : QtOrientation) :
    ∃ v : Rat, unsetStyle.thickness sys orient = some v ∧ 0 < v := by
  rcases h with rfl | rfl | rfl | rfl <;> cases orient <;>
    first
      | exact ⟨4, rfl, by norm_num⟩
      | exact ⟨3, rfl, by norm_num⟩

/-- Witness for C8 on the base preset, horizontally. -/
theorem thickness_total_positive_witness :
    ∃ v : Rat, unsetStyle.thickness BASE_STYLE .horizontal = some v ∧ 0 < v :=
  thickness_total_positive BASE_STYLE (Or.inl rfl) .horizontal

/-- C9: platform preset selection: any identifier other than the three known
ones yields the base preset with no failure; Windows and Linux map to their
presets; on Darwin a leading version component of 11 or more selects the
Big Sur preset and a smaller one the Catalina preset. -/
theorem system_style_selection (system ver : String) :
    (system ≠ "Darwin" → system ≠ "Windows" → system ≠ "Linux" →
      selectSystemStyle system ver = .ok BASE_STYLE) ∧
    (selectSystemStyle "Windows" ver = .ok BASE_STYLE) ∧
    (selectSystemStyle "Linux" ver = .ok LINUX_STYLE) ∧
    (∀ n : Int, pyInt (firstDotComponent ver) = some n →
      (11 ≤ n → selectSystemStyle "Darwin" ver = .ok BIG_SUR_STYLE) ∧
      (n < 11 → selectSystemStyle "Darwin" ver = .ok CATALINA_STYLE)) := by
  refine ⟨?_, ?_, ?_, ?_⟩
  · intro h1 h2 h3
    simp [selectSystemStyle, h1, h2, h3]
  · simp [selectSystemStyle]
  · simp [selectSystemStyle]
  · intro n hn
    constructor
    · intro hge
      simp [selectSystemStyle, hn, hge]
    · intro hlt
      simp [selectSystemStyle, hn, show ¬(11 ≤ n) from by omega]

/-- Witness for C9 at an unknown platform and at the two Darwin version
families. -/
theorem system_style_selection_witness :
    selectSystemStyle "Amiga" "" = .ok BASE_STYLE ∧
    selectSystemStyle "Windows" "" = .ok BASE_STYLE ∧
    selectSystemStyle "Linux" "" = .ok LINUX_STYLE ∧
    selectSystemStyle "Darwin" "11.4" = .ok BIG_SUR_STYLE ∧
    selectSystemStyle "Darwin" "10.15.7" = .ok CATALINA_STYLE :=
  ⟨(system_style_selection "Amiga" "").1 (by decide) (by decide) (by decide),
   (system_style_selection "Windows" "").2.1,
   (system_style_selection "Linux" "").2.2.1,
   ((system_style_selection "Darwin" "11.4").2.2.2 11 rfl).1 (by norm_num),
   ((system_style_selection "Darwin" "10.15.7").2.2.2 10 rfl).2 (by norm_num)⟩

/-- C10: a field explicitly set to 0 is indistinguishable from an unset
field for the truthiness-based fallback chains: `brush` with
`tick_bar_alpha = 0`, `offset` with a per-orientation or tick offset of 0,
and `thickness` with a thickness of 0 all behave exactly as with the field
unset (the platform default takes its place). -/
theorem zero_fields_like_unset (self sys : RangeSliderStyle) (cg : ColorGroup)
    (tp : TickPos) (orient : QtOrientation) :
    ({ self with tick_bar_alpha := some 0 } : RangeSliderStyle).brush sys cg tp =
      ({ self with tick_bar_alpha := none } : RangeSliderStyle).brush sys cg tp ∧
    ({ self with h_offset := some 0 } : RangeSliderStyle).offset sys orient tp =
      ({ self with h_offset := none } : RangeSliderStyle).offset sys orient tp ∧
    ({ self with v_offset := some 0 } : RangeSliderStyle).offset sys orient tp =
      ({ self with v_offset := none } : RangeSliderStyle).offset sys orient tp ∧
    ({ self with tick_offset := some 0 } : RangeSliderStyle).offset sys orient tp =
      ({ self with tick_offset := none } : RangeSliderStyle).offset sys orient tp ∧
    ({ self with horizontal_thickness := some 0 } : RangeSliderStyle).thickness sys orient =
      ({ self with horizontal_thickness := none } : RangeSliderStyle).thickness sys orient ∧
    ({ self with vertical_thickness := some 0 } : RangeSliderStyle).thickness sys orient =
      ({ self with vertical_thickness := none } : RangeSliderStyle).thickness sys orient := by
  refine ⟨?_, ?_, ?_, ?_, ?_, ?_⟩ <;>
    cases orient <;> cases tp <;> cases cg <;>
      simp [RangeSliderStyle.brush, RangeSliderStyle.resolvedDraw,
        RangeSliderStyle.brushField, RangeSliderStyle.offset,
        RangeSliderStyle.baseOffset, RangeSliderStyle.thickness,
        pyOrRat, ratTruthy, TickPos.hasAbove, TickPos.hasBelow]
